import Mathlib

/-!
A shallow embedding of the FAT read-only filesystem driver (src/src/fs.rs)
together with proofs about its boot-record decoding, derived geometry,
FAT-variant detection, and the bounded byte-range view (FatSlice).

Modelling conventions:
* The backing `Read + Seek` stream is modelled as an in-memory byte list with a
  cursor (`ByteStream`).  `read` into a fixed buffer fills
  `min requested remaining` bytes and never fails; `read_exact` fails with an
  end-of-stream error when fewer bytes remain; `seek(Start _)` always succeeds.
* Machine integers are `Nat` with explicit `% 2^w` at each operation where the
  Rust code can overflow (release-mode wrapping semantics).  Rust division by
  zero panics in every build mode; the two divisions performed by
  `FatFileSystem::new` are therefore guarded and modelled as a `divByZero`
  failure of the open operation.
* Fallible Rust code returning `io::Result` is modelled with `Except FsError`.
-/

set_option maxRecDepth 8000

namespace FatFs

/-- Decidable equality for `Except`, used to evaluate driver results on
concrete inputs. -/
instance {ε α : Type} [DecidableEq ε] [DecidableEq α] : DecidableEq (Except ε α)
  | .error x, .error y =>
    if h : x = y then .isTrue (congrArg Except.error h)
    else .isFalse fun hh => h (Except.error.inj hh)
  | .error _, .ok _ => .isFalse fun hh => Except.noConfusion hh
  | .ok _, .error _ => .isFalse fun hh => Except.noConfusion hh
  | .ok x, .ok y =>
    if h : x = y then .isTrue (congrArg Except.ok h)
    else .isFalse fun hh => h (Except.ok.inj hh)

/-- Failure modes of the embedded driver operations: `eof` models an
`UnexpectedEof`-style I/O error from a `read_exact`-backed read, the other
constructors model the explicit error paths of fs.rs (and the division-by-zero
panics of `FatFileSystem::new`). -/
inductive FsError where
  | eof
  | invalidSignature
  | divByZero
  | invalidSeek
deriving DecidableEq

/-- 2^16, the wrap modulus of Rust `u16` arithmetic. -/
def U16 : Nat := 65536

/-- 2^32, the wrap modulus of Rust `u32` arithmetic. -/
def U32 : Nat := 4294967296

/-- 2^64, the wrap modulus of Rust `u64` arithmetic. -/
def U64 : Nat := 18446744073709551616

/-- 2^63, the boundary between nonnegative and negative `i64` values. -/
def I63 : Nat := 9223372036854775808

/-- The backing stream: an in-memory byte sequence plus a read cursor.  This is
the canonical `ReadSeek` implementor the driver is generic over. -/
structure ByteStream where
  data : List Nat
  pos : Nat
deriving DecidableEq

/-- `Read::read` into a buffer of length `n`: transfers
`min n remaining` bytes from the cursor and advances it; never fails. -/
def ByteStream.readPlain (s : ByteStream) (n : Nat) : List Nat × ByteStream :=
  let k := min n (s.data.length - s.pos)
  ((s.data.drop s.pos).take k, ⟨s.data, s.pos + k⟩)

/-- `rdr.read(&mut buf)` where `buf` is a fresh zero-initialized array of
length `n`: the untouched suffix of the buffer keeps its default zeros. -/
def ByteStream.readArr (s : ByteStream) (n : Nat) : List Nat × ByteStream :=
  let r := s.readPlain n
  (r.1 ++ List.replicate (n - r.1.length) 0, r.2)

/-- `Read::read_exact` into a buffer of length `n`: fails with an
end-of-stream error when fewer than `n` bytes remain. -/
def ByteStream.readExact (s : ByteStream) (n : Nat) : Except FsError (List Nat × ByteStream) :=
  if s.pos + n ≤ s.data.length then
    .ok ((s.data.drop s.pos).take n, ⟨s.data, s.pos + n⟩)
  else .error .eof

/-- `Seek::seek(SeekFrom::Start(x))` on the backing stream (always succeeds,
may position past the end, as for files and in-memory cursors). -/
def ByteStream.seekStart (s : ByteStream) (x : Nat) : ByteStream :=
  ⟨s.data, x⟩

/-- `ReadBytesExt::read_u8` (backed by `read_exact`). -/
def readU8 (s : ByteStream) : Except FsError (Nat × ByteStream) :=
  match s.readExact 1 with
  | .error e => .error e
  | .ok (bs, s1) => .ok (bs.getD 0 0, s1)

/-- `ReadBytesExt::read_u16::<LittleEndian>` (backed by `read_exact`). -/
def readU16 (s : ByteStream) : Except FsError (Nat × ByteStream) :=
  match s.readExact 2 with
  | .error e => .error e
  | .ok (bs, s1) => .ok (bs.getD 0 0 + 256 * bs.getD 1 0, s1)

/-- `ReadBytesExt::read_u32::<LittleEndian>` (backed by `read_exact`). -/
def readU32 (s : ByteStream) : Except FsError (Nat × ByteStream) :=
  match s.readExact 4 with
  | .error e => .error e
  | .ok (bs, s1) =>
    .ok (bs.getD 0 0 + 256 * bs.getD 1 0 + 65536 * bs.getD 2 0 + 16777216 * bs.getD 3 0, s1)

/-- The FAT variant enumeration of fs.rs. -/
inductive FatType where
  | Fat12
  | Fat16
  | Fat32
deriving DecidableEq

/-- The BIOS Parameter Block, mirroring `FatBiosParameterBlock` field for
field.  All integer fields are `Nat` carrying the decoded (in-range) values;
the three byte arrays are byte lists. -/
structure FatBiosParameterBlock where
  bytes_per_sector : Nat
  sectors_per_cluster : Nat
  reserved_sectors : Nat
  fats : Nat
  root_entries : Nat
  total_sectors_16 : Nat
  media : Nat
  sectors_per_fat_16 : Nat
  sectors_per_track : Nat
  heads : Nat
  hidden_sectors : Nat
  total_sectors_32 : Nat
  sectors_per_fat_32 : Nat
  extended_flags : Nat
  fs_version : Nat
  root_dir_first_cluster : Nat
  fs_info_sector : Nat
  backup_boot_sector : Nat
  reserved_0 : List Nat
  drive_num : Nat
  reserved_1 : Nat
  ext_sig : Nat
  volume_id : Nat
  volume_label : List Nat
  fs_type_label : List Nat
deriving DecidableEq

/-- The boot record, mirroring `FatBootRecord`. -/
structure FatBootRecord where
  bootjmp : List Nat
  oem_name : List Nat
  bpb : FatBiosParameterBlock
  boot_code : List Nat
  boot_sig : List Nat
deriving DecidableEq

/-- `FatFileSystem::read_bpb`: strict sequential little-endian decode of the
BPB, branching on whether the just-read 16-bit sectors-per-FAT field is zero
(extended FAT32 layout) or not (legacy layout).  Fields the taken branch never
assigns keep their `Default` zeros, exactly as in the Rust struct. -/
def read_bpb (s0 : ByteStream) : Except FsError (FatBiosParameterBlock × ByteStream) :=
  match readU16 s0 with
  | .error e => .error e
  | .ok (bytes_per_sector, s1) =>
  match readU8 s1 with
  | .error e => .error e
  | .ok (sectors_per_cluster, s2) =>
  match readU16 s2 with
  | .error e => .error e
  | .ok (reserved_sectors, s3) =>
  match readU8 s3 with
  | .error e => .error e
  | .ok (fats, s4) =>
  match readU16 s4 with
  | .error e => .error e
  | .ok (root_entries, s5) =>
  match readU16 s5 with
  | .error e => .error e
  | .ok (total_sectors_16, s6) =>
  match readU8 s6 with
  | .error e => .error e
  | .ok (media, s7) =>
  match readU16 s7 with
  | .error e => .error e
  | .ok (sectors_per_fat_16, s8) =>
  match readU16 s8 with
  | .error e => .error e
  | .ok (sectors_per_track, s9) =>
  match readU16 s9 with
  | .error e => .error e
  | .ok (heads, s10) =>
  match readU32 s10 with
  | .error e => .error e
  | .ok (hidden_sectors, s11) =>
  match readU32 s11 with
  | .error e => .error e
  | .ok (total_sectors_32, s12) =>
  if sectors_per_fat_16 = 0 then
    match readU32 s12 with
    | .error e => .error e
    | .ok (sectors_per_fat_32, s13) =>
    match readU16 s13 with
    | .error e => .error e
    | .ok (extended_flags, s14) =>
    match readU16 s14 with
    | .error e => .error e
    | .ok (fs_version, s15) =>
    match readU32 s15 with
    | .error e => .error e
    | .ok (root_dir_first_cluster, s16) =>
    match readU16 s16 with
    | .error e => .error e
    | .ok (fs_info_sector, s17) =>
    match readU16 s17 with
    | .error e => .error e
    | .ok (backup_boot_sector, s18) =>
    let r0 := s18.readArr 12
    match readU8 r0.2 with
    | .error e => .error e
    | .ok (drive_num, s19) =>
    match readU8 s19 with
    | .error e => .error e
    | .ok (reserved_1, s20) =>
    match readU8 s20 with
    | .error e => .error e
    | .ok (ext_sig, s21) =>
    match readU32 s21 with
    | .error e => .error e
    | .ok (volume_id, s22) =>
    let vl := s22.readArr 11
    let ftl := vl.2.readArr 8
    .ok ({ bytes_per_sector := bytes_per_sector,
           sectors_per_cluster := sectors_per_cluster,
           reserved_sectors := reserved_sectors,
           fats := fats,
           root_entries := root_entries,
           total_sectors_16 := total_sectors_16,
           media := media,
           sectors_per_fat_16 := sectors_per_fat_16,
           sectors_per_track := sectors_per_track,
           heads := heads,
           hidden_sectors := hidden_sectors,
           total_sectors_32 := total_sectors_32,
           sectors_per_fat_32 := sectors_per_fat_32,
           extended_flags := extended_flags,
           fs_version := fs_version,
           root_dir_first_cluster := root_dir_first_cluster,
           fs_info_sector := fs_info_sector,
           backup_boot_sector := backup_boot_sector,
           reserved_0 := r0.1,
           drive_num := drive_num,
           reserved_1 := reserved_1,
           ext_sig := ext_sig,
           volume_id := volume_id,
           volume_label := vl.1,
           fs_type_label := ftl.1 }, ftl.2)
  else
    match readU8 s12 with
    | .error e => .error e
    | .ok (drive_num, s13) =>
    match readU8 s13 with
    | .error e => .error e
    | .ok (reserved_1, s14) =>
    match readU8 s14 with
    | .error e => .error e
    | .ok (ext_sig, s15) =>
    match readU32 s15 with
    | .error e => .error e
    | .ok (volume_id, s16) =>
    let vl := s16.readArr 11
    let ftl := vl.2.readArr 8
    .ok ({ bytes_per_sector := bytes_per_sector,
           sectors_per_cluster := sectors_per_cluster,
           reserved_sectors := reserved_sectors,
           fats := fats,
           root_entries := root_entries,
           total_sectors_16 := total_sectors_16,
           media := media,
           sectors_per_fat_16 := sectors_per_fat_16,
           sectors_per_track := sectors_per_track,
           heads := heads,
           hidden_sectors := hidden_sectors,
           total_sectors_32 := total_sectors_32,
           sectors_per_fat_32 := 0,
           extended_flags := 0,
           fs_version := 0,
           root_dir_first_cluster := 0,
           fs_info_sector := 0,
           backup_boot_sector := 0,
           reserved_0 := List.replicate 12 0,
           drive_num := drive_num,
           reserved_1 := reserved_1,
           ext_sig := ext_sig,
           volume_id := volume_id,
           volume_label := vl.1,
           fs_type_label := ftl.1 }, ftl.2)

/-- `FatFileSystem::read_boot_record`: jump bytes and OEM name via plain
`read`, the BPB, then `read_exact` of the boot-code region (420 bytes in the
extended layout, 448 in the legacy one; the tail of the 448-byte array keeps
its default zeros), then the two signature bytes via plain `read`. -/
def read_boot_record (s0 : ByteStream) : Except FsError (FatBootRecord × ByteStream) :=
  let j := s0.readArr 3
  let o := j.2.readArr 8
  match read_bpb o.2 with
  | .error e => .error e
  | .ok (bpb, s1) =>
  match (if bpb.sectors_per_fat_16 = 0 then s1.readExact 420 else s1.readExact 448) with
  | .error e => .error e
  | .ok (bc, s2) =>
  let sig := s2.readArr 2
  .ok ({ bootjmp := j.1, oem_name := o.1, bpb := bpb,
         boot_code := bc ++ List.replicate (448 - bc.length) 0,
         boot_sig := sig.1 }, sig.2)

/-- Line 120 of fs.rs: the total sector count is the 32-bit field when the
16-bit one is zero, the 16-bit one otherwise. -/
def totalSectorsOf (b : FatBiosParameterBlock) : Nat :=
  if b.total_sectors_16 = 0 then b.total_sectors_32 else b.total_sectors_16

/-- Line 121 of fs.rs: sectors-per-FAT with the same 16/32-bit convention. -/
def sectorsPerFatOf (b : FatBiosParameterBlock) : Nat :=
  if b.sectors_per_fat_16 = 0 then b.sectors_per_fat_32 else b.sectors_per_fat_16

/-- Line 122 of fs.rs: `((root_entries * 32) + (bytes_per_sector - 1)) /
bytes_per_sector`, computed in `u16` arithmetic (the multiplication and
addition wrap at 2^16) and then cast to `u32`.  The `bytes_per_sector - 1`
subtraction is only reached with `bytes_per_sector ≥ 1` (a zero value makes
the division panic, which the open function models separately). -/
def rootDirSectorsOf (b : FatBiosParameterBlock) : Nat :=
  ((b.root_entries * 32) % U16 + (b.bytes_per_sector - 1)) % U16 / b.bytes_per_sector

/-- Line 123 of fs.rs: `reserved_sectors as u32 + (fats as u32 *
sectors_per_fat) + root_dir_sectors`, each operation wrapping at 2^32. -/
def firstDataSectorOf (b : FatBiosParameterBlock) : Nat :=
  ((b.reserved_sectors + (b.fats * sectorsPerFatOf b) % U32) % U32 + rootDirSectorsOf b) % U32

/-- Line 124 of fs.rs: `total_sectors - (reserved_sectors + fats *
sectors_per_fat + root_dir_sectors)` in wrapping `u32` arithmetic (the
subtrahend is the same expression as the first data sector). -/
def dataSectorsOf (b : FatBiosParameterBlock) : Nat :=
  (totalSectorsOf b + U32 - firstDataSectorOf b) % U32

/-- Line 125 of fs.rs: `data_sectors / sectors_per_cluster` (the zero-divisor
panic is modelled by the open function's guard). -/
def totalClustersOf (b : FatBiosParameterBlock) : Nat :=
  dataSectorsOf b / b.sectors_per_cluster

/-- Line 128 of fs.rs: `reserved_sectors * bytes_per_sector` — a `u16 × u16`
product computed in `u16` arithmetic, hence wrapping at 2^16, before being
cast to `u64` for the seek. -/
def fatOffsetOf (b : FatBiosParameterBlock) : Nat :=
  (b.reserved_sectors * b.bytes_per_sector) % U16

/-- Line 130 of fs.rs: `sectors_per_fat * bytes_per_sector as u32` in `u32`
arithmetic. -/
def fatSizeOf (b : FatBiosParameterBlock) : Nat :=
  (sectorsPerFatOf b * b.bytes_per_sector) % U32

/-- `FatFileSystem::fat_type_from_clusters` (lines 211-219). -/
def fat_type_from_clusters (total_clusters : Nat) : FatType :=
  if total_clusters < 4085 then FatType.Fat12
  else if total_clusters < 65525 then FatType.Fat16
  else FatType.Fat32

/-- Modelled from the spec: the `FatTable` module (table.rs) is not under
src/.  Per §4.3 the table is constructed once at open time by reading the
entire first table region (`sectors-per-table × bytes-per-sector` bytes) into
memory, and per §7 a table region truncated by end-of-stream is fatal; so the
construction is an exact read of `size` bytes at the current position.  The
claims settled here depend only on the bytes read, so the table is kept as the
raw byte list (variant-specific entry decoding is out of their scope). -/
def FatTable.from_read (s : ByteStream) (size : Nat) : Except FsError (List Nat × ByteStream) :=
  s.readExact size

/-- `FatSharedState` (minus the lifetime plumbing): the backing stream, the
detected variant, the decoded boot record, the two derived geometry constants
and the loaded allocation table. -/
structure FatSharedState where
  rdr : ByteStream
  fat_type : FatType
  boot : FatBootRecord
  first_data_sector : Nat
  root_dir_sectors : Nat
  table : List Nat
deriving DecidableEq

/-- `FatSharedState::offset_from_sector`: `(sector as u64) *
bytes_per_sector as u64` (wrapping `u64` multiplication). -/
def FatSharedState.offset_from_sector (st : FatSharedState) (sector : Nat) : Nat :=
  (sector * st.boot.bpb.bytes_per_sector) % U64

/-- `FatSharedState::sector_from_cluster`: `((cluster - 2) *
sectors_per_cluster as u32) + first_data_sector`, every operation in wrapping
`u32` arithmetic (the subtraction is written in wrap form `+ 2^32 - 2`). -/
def FatSharedState.sector_from_cluster (st : FatSharedState) (cluster : Nat) : Nat :=
  ((cluster + U32 - 2) % U32 * st.boot.bpb.sectors_per_cluster % U32
    + st.first_data_sector) % U32

/-- `FatSharedState::offset_from_cluster`. -/
def FatSharedState.offset_from_cluster (st : FatSharedState) (cluster : Nat) : Nat :=
  st.offset_from_sector (st.sector_from_cluster cluster)

/-- The body of `FatFileSystem::new` after the boot record has been decoded:
signature check, derived geometry (with the two division-by-zero panics
surfaced as `divByZero`), variant detection, seek to the (16-bit-wrapped)
FAT offset and the allocation-table load. -/
def FatFileSystem.newWithBoot (boot : FatBootRecord) (s : ByteStream) :
    Except FsError FatSharedState :=
  if boot.boot_sig ≠ [85, 170] then .error .invalidSignature
  else if boot.bpb.bytes_per_sector = 0 then .error .divByZero
  else if boot.bpb.sectors_per_cluster = 0 then .error .divByZero
  else
    let fatType := fat_type_from_clusters (totalClustersOf boot.bpb)
    let s1 := s.seekStart (fatOffsetOf boot.bpb)
    match FatTable.from_read s1 (fatSizeOf boot.bpb) with
    | .error e => .error e
    | .ok (table, s2) =>
      .ok { rdr := s2, fat_type := fatType, boot := boot,
            first_data_sector := firstDataSectorOf boot.bpb,
            root_dir_sectors := rootDirSectorsOf boot.bpb,
            table := table }

/-- `FatFileSystem::new` (lines 114-145): decode the boot record from the
stream's current position, then build the shared state. -/
def FatFileSystem.new (s : ByteStream) : Except FsError FatSharedState :=
  match read_boot_record s with
  | .error e => .error e
  | .ok (boot, s1) => FatFileSystem.newWithBoot boot s1

/-- `std::io::SeekFrom`: absolute (`u64`), cursor-relative (`i64`) and
end-relative (`i64`) positioning. -/
inductive SeekFrom where
  | start (x : Nat)
  | current (x : Int)
  | fromEnd (x : Int)
deriving DecidableEq

/-- Type-range validity of a `SeekFrom` payload: `u64` for `start`, `i64` for
the signed variants. -/
def SeekFrom.argOk : SeekFrom → Prop
  | .start x => x < 18446744073709551616
  | .current x => -9223372036854775808 ≤ x ∧ x < 9223372036854775808
  | .fromEnd x => -9223372036854775808 ≤ x ∧ x < 9223372036854775808

instance : DecidablePred SeekFrom.argOk := by
  intro p
  cases p <;> (unfold SeekFrom.argOk; infer_instance)

/-- Reduce an unbounded integer to the `i64` two's-complement range; this is
the result of any wrapping `i64` operation or of an `as i64` cast. -/
def wrapI64 (z : Int) : Int :=
  (z + 9223372036854775808) % 18446744073709551616 - 9223372036854775808

/-- The byte-range view over `[begin, begin+size)` of the shared stream, with
its own cursor (`FatSlice`, lines 237-242). -/
structure FatSlice where
  begin : Nat
  size : Nat
  offset : Nat
deriving DecidableEq

/-- `FatSlice::new`: cursor starts at offset 0. -/
def FatSlice.new (begin size : Nat) : FatSlice :=
  { begin := begin, size := size, offset := 0 }

/-- `FatSlice::from_sectors`: sector counts scaled to bytes in `u64`
arithmetic (the state's bytes-per-sector is passed explicitly here). -/
def FatSlice.from_sectors (first_sector sectors_count bytes_per_sector : Nat) : FatSlice :=
  FatSlice.new (first_sector * bytes_per_sector % U64) (sectors_count * bytes_per_sector % U64)

/-- Outcome of one `FatSlice` read: bytes returned, the count (the Rust
return value), and the updated slice and backing stream. -/
structure SliceReadResult where
  count : Nat
  bytes : List Nat
  slice : FatSlice
  rdr : ByteStream
deriving DecidableEq

/-- `impl Read for FatSlice` (lines 255-265): compute the absolute position
`begin + offset` and the request size `min (size - offset) buf.len()` (both
in wrapping `u64` arithmetic), seek the shared stream there, read, and
advance the slice cursor by the byte count actually read. -/
def FatSlice.read (sl : FatSlice) (s : ByteStream) (bufLen : Nat) : SliceReadResult :=
  let offset := (sl.begin + sl.offset) % U64
  let read_size := min ((sl.size + U64 - sl.offset) % U64) bufLen
  let s1 := s.seekStart offset
  let r := s1.readPlain read_size
  { count := r.1.length, bytes := r.1,
    slice := { sl with offset := (sl.offset + r.1.length) % U64 }, rdr := r.2 }

/-- Outcome of one `FatSlice` seek: the returned offset or the invalid-seek
error, and the slice afterwards (unchanged on error). -/
structure SliceSeekResult where
  res : Except FsError Nat
  slice : FatSlice
deriving DecidableEq

/-- `impl Seek for FatSlice` (lines 267-281): compute the new offset in `i64`
arithmetic (`as i64` casts of the `u64` cursor and size, wrapping addition),
reject it when negative or beyond the slice size, otherwise store and return
it. -/
def FatSlice.seek (sl : FatSlice) (pos : SeekFrom) : SliceSeekResult :=
  let new_offset : Int :=
    match pos with
    | .current x => wrapI64 (wrapI64 sl.offset + x)
    | .start x => wrapI64 x
    | .fromEnd x => wrapI64 (wrapI64 sl.size + x)
  if new_offset < 0 ∨ sl.size < new_offset.toNat then
    { res := .error .invalidSeek, slice := sl }
  else
    { res := .ok new_offset.toNat, slice := { sl with offset := new_offset.toNat } }

/-- The resulting offset of a seek request in exact (unbounded) integer
arithmetic — the "resulting offset" the spec speaks about. -/
def seekTarget (sl : FatSlice) (pos : SeekFrom) : Int :=
  match pos with
  | .start x => x
  | .current x => (sl.offset : Int) + x
  | .fromEnd x => (sl.size : Int) + x

/-- Observe the stored root-directory sector count of an open result. -/
def rootDirSectorsOfResult : Except FsError FatSharedState → Option Nat
  | .ok st => some st.root_dir_sectors
  | .error _ => none

/-- Observe the decoded BPB of an open result. -/
def bpbOfResult : Except FsError FatSharedState → Option FatBiosParameterBlock
  | .ok st => some st.boot.bpb
  | .error _ => none

/-- Observe the loaded allocation-table bytes of an open result. -/
def tableOfResult : Except FsError FatSharedState → Option (List Nat)
  | .ok st => some st.table
  | .error _ => none

/-- Observe `sector_from_cluster` of an open result. -/
def sectorOfResult (r : Except FsError FatSharedState) (c : Nat) : Option Nat :=
  match r with
  | .ok st => some (st.sector_from_cluster c)
  | .error _ => none

/-- A small well-formed legacy-layout BPB used to instantiate the geometry
theorems on concrete data: 512-byte sectors, 1 sector per cluster, 1 reserved
sector, one FAT of one sector, 16 root entries, 100 total sectors. -/
def exBpb : FatBiosParameterBlock :=
  { bytes_per_sector := 512, sectors_per_cluster := 1, reserved_sectors := 1,
    fats := 1, root_entries := 16, total_sectors_16 := 100, media := 0,
    sectors_per_fat_16 := 1, sectors_per_track := 0, heads := 0,
    hidden_sectors := 0, total_sectors_32 := 0, sectors_per_fat_32 := 0,
    extended_flags := 0, fs_version := 0, root_dir_first_cluster := 0,
    fs_info_sector := 0, backup_boot_sector := 0,
    reserved_0 := List.replicate 12 0, drive_num := 0, reserved_1 := 0,
    ext_sig := 0, volume_id := 0, volume_label := List.replicate 11 32,
    fs_type_label := List.replicate 8 32 }

/-- A boot record carrying `exBpb` with a valid signature. -/
def exBoot : FatBootRecord :=
  { bootjmp := [0, 0, 0], oem_name := List.replicate 8 0, bpb := exBpb,
    boot_code := List.replicate 448 0, boot_sig := [85, 170] }

/-- A backing stream large enough for `exBpb`'s FAT region (offset 512,
size 512). -/
def exStream : ByteStream := ⟨List.replicate 1024 0, 0⟩

/-- The shared state produced by opening `exBoot` over `exStream`:
root-directory sectors ceil(16·32/512) = 1, first data sector 1 + 1·1 + 1 = 3,
97 data clusters hence FAT12. -/
def exState : FatSharedState :=
  { rdr := ⟨List.replicate 1024 0, 1024⟩, fat_type := FatType.Fat12,
    boot := exBoot, first_data_sector := 3, root_dir_sectors := 1,
    table := List.replicate 512 0 }

/-- An all-zero BPB, as decoded from an all-zero boot sector. -/
def zeroBpb : FatBiosParameterBlock :=
  { bytes_per_sector := 0, sectors_per_cluster := 0, reserved_sectors := 0,
    fats := 0, root_entries := 0, total_sectors_16 := 0, media := 0,
    sectors_per_fat_16 := 0, sectors_per_track := 0, heads := 0,
    hidden_sectors := 0, total_sectors_32 := 0, sectors_per_fat_32 := 0,
    extended_flags := 0, fs_version := 0, root_dir_first_cluster := 0,
    fs_info_sector := 0, backup_boot_sector := 0,
    reserved_0 := List.replicate 12 0, drive_num := 0, reserved_1 := 0,
    ext_sig := 0, volume_id := 0, volume_label := List.replicate 11 0,
    fs_type_label := List.replicate 8 0 }

/-- The boot record decoded from 512 zero bytes (extended layout, since the
16-bit sectors-per-FAT field is zero; signature `[0, 0]`). -/
def zeroBoot : FatBootRecord :=
  { bootjmp := [0, 0, 0], oem_name := List.replicate 8 0, bpb := zeroBpb,
    boot_code := List.replicate 448 0, boot_sig := [0, 0] }

/-- A serialized legacy boot sector with root_entries = 2048 and
bytes_per_sector = 512 (so `root_entries * 32` wraps to 0 in `u16`), followed
by one 512-byte FAT sector: bytes_per_sector 512, sectors_per_cluster 1,
reserved 1, 1 FAT of 1 sector, 2048 root entries, 100 total sectors, valid
signature. -/
def c1badData : List Nat :=
  [0, 0, 0] ++ List.replicate 8 0 ++ [0, 2] ++ [1] ++ [1, 0] ++ [1] ++ [0, 8]
    ++ [100, 0] ++ [0] ++ [1, 0] ++ [0, 0] ++ [0, 0] ++ List.replicate 4 0
    ++ List.replicate 4 0 ++ [0] ++ [0] ++ [0] ++ List.replicate 4 0
    ++ List.replicate 11 32 ++ List.replicate 8 32 ++ List.replicate 448 0
    ++ [85, 170] ++ List.replicate 512 0

/-- The geometry decoded from `c5Data`: 512 reserved sectors of 512 bytes, so
the exact FAT byte offset is 262144 but the `u16` product wraps to 0. -/
def c5Bpb : FatBiosParameterBlock :=
  { bytes_per_sector := 512, sectors_per_cluster := 1, reserved_sectors := 512,
    fats := 1, root_entries := 0, total_sectors_16 := 4096, media := 0,
    sectors_per_fat_16 := 1, sectors_per_track := 0, heads := 0,
    hidden_sectors := 0, total_sectors_32 := 0, sectors_per_fat_32 := 0,
    extended_flags := 0, fs_version := 0, root_dir_first_cluster := 0,
    fs_info_sector := 0, backup_boot_sector := 0,
    reserved_0 := List.replicate 12 0, drive_num := 0, reserved_1 := 0,
    ext_sig := 0, volume_id := 0, volume_label := List.replicate 11 32,
    fs_type_label := List.replicate 8 32 }

/-- A serialized legacy boot sector for `c5Bpb` (exactly 512 bytes — the
wrapped FAT offset 0 makes the driver read the boot sector itself back as the
allocation table). -/
def c5Data : List Nat :=
  [0, 0, 0] ++ List.replicate 8 0 ++ [0, 2] ++ [1] ++ [0, 2] ++ [1] ++ [0, 0]
    ++ [0, 16] ++ [0] ++ [1, 0] ++ [0, 0] ++ [0, 0] ++ List.replicate 4 0
    ++ List.replicate 4 0 ++ [0] ++ [0] ++ [0] ++ List.replicate 4 0
    ++ List.replicate 11 32 ++ List.replicate 8 32 ++ List.replicate 448 0
    ++ [85, 170]

/-- The geometry decoded from `c6Data`: 1-byte sectors, 1 sector per cluster,
600 reserved sectors but only 500 total sectors, so the `u32` data-sector
subtraction wraps and the cluster count becomes 2^32 - 100. -/
def c6Bpb : FatBiosParameterBlock :=
  { bytes_per_sector := 1, sectors_per_cluster := 1, reserved_sectors := 600,
    fats := 0, root_entries := 0, total_sectors_16 := 500, media := 0,
    sectors_per_fat_16 := 1, sectors_per_track := 0, heads := 0,
    hidden_sectors := 0, total_sectors_32 := 0, sectors_per_fat_32 := 0,
    extended_flags := 0, fs_version := 0, root_dir_first_cluster := 0,
    fs_info_sector := 0, backup_boot_sector := 0,
    reserved_0 := List.replicate 12 0, drive_num := 0, reserved_1 := 0,
    ext_sig := 0, volume_id := 0, volume_label := List.replicate 11 32,
    fs_type_label := List.replicate 8 32 }

/-- A serialized legacy boot sector for `c6Bpb`, padded so the 1-byte FAT
region at offset 600 is readable (601 bytes in total). -/
def c6Data : List Nat :=
  [0, 0, 0] ++ List.replicate 8 0 ++ [1, 0] ++ [1] ++ [88, 2] ++ [0] ++ [0, 0]
    ++ [244, 1] ++ [0] ++ [1, 0] ++ [0, 0] ++ [0, 0] ++ List.replicate 4 0
    ++ List.replicate 4 0 ++ [0] ++ [0] ++ [0] ++ List.replicate 4 0
    ++ List.replicate 11 32 ++ List.replicate 8 32 ++ List.replicate 448 0
    ++ [85, 170] ++ List.replicate 89 0

/-- `str::from_utf8` validation and decoding (RFC 3629): decode a byte list
into the list of scalar values, rejecting stray or missing continuation
bytes, overlong encodings (leads 0xC0/0xC1, and the tightened second-byte
ranges after 0xE0/0xF0), surrogates (after 0xED) and values above U+10FFFF
(leads 0xF5 and up, and the tightened range after 0xF4).  `none` models the
`Err` that `volume_label`'s `unwrap` turns into a panic. -/
def utf8DecodeAux : Nat → List Nat → Option (List Nat)
  | _, [] => some []
  | 0, _ :: _ => none
  | fuel + 1, b :: rest =>
    if b < 128 then
      match utf8DecodeAux fuel rest with
      | some cs => some (b :: cs)
      | none => none
    else if b < 194 then none
    else if b < 224 then
      match rest with
      | b2 :: rest2 =>
        if 128 ≤ b2 ∧ b2 < 192 then
          match utf8DecodeAux fuel rest2 with
          | some cs => some (((b - 192) * 64 + (b2 - 128)) :: cs)
          | none => none
        else none
      | [] => none
    else if b < 240 then
      match rest with
      | b2 :: b3 :: rest3 =>
        if (if b = 224 then 160 ≤ b2 ∧ b2 < 192
            else if b = 237 then 128 ≤ b2 ∧ b2 < 160
            else 128 ≤ b2 ∧ b2 < 192) ∧ 128 ≤ b3 ∧ b3 < 192 then
          match utf8DecodeAux fuel rest3 with
          | some cs => some (((b - 224) * 4096 + (b2 - 128) * 64 + (b3 - 128)) :: cs)
          | none => none
        else none
      | _ => none
    else if b < 245 then
      match rest with
      | b2 :: b3 :: b4 :: rest4 =>
        if (if b = 240 then 144 ≤ b2 ∧ b2 < 192
            else if b = 244 then 128 ≤ b2 ∧ b2 < 144
            else 128 ≤ b2 ∧ b2 < 192) ∧ 128 ≤ b3 ∧ b3 < 192 ∧ 128 ≤ b4 ∧ b4 < 192 then
          match utf8DecodeAux fuel rest4 with
          | some cs => some (((b - 240) * 262144 + (b2 - 128) * 4096
              + (b3 - 128) * 64 + (b4 - 128)) :: cs)
          | none => none
        else none
      | _ => none
    else none

/-- Entry point: every decode step consumes at least one byte, so a fuel of
`l.length` never runs out and the fuel-exhaustion arm is unreachable. -/
def utf8Decode (l : List Nat) : Option (List Nat) :=
  utf8DecodeAux l.length l

/-- `char::is_whitespace`: the Unicode White_Space code points. -/
def isWhitespaceChar (c : Nat) : Bool :=
  c == 9 || c == 10 || c == 11 || c == 12 || c == 13 || c == 32 || c == 133
    || c == 160 || c == 5760 || (decide (8192 ≤ c) && decide (c ≤ 8202))
    || c == 8232 || c == 8233 || c == 8239 || c == 8287 || c == 12288

/-- `str::trim_right` on a decoded scalar-value list: drop trailing
whitespace. -/
def trimRightCp (l : List Nat) : List Nat :=
  ((l.reverse).dropWhile isWhitespaceChar).reverse

/-- `FatFileSystem::volume_label` (lines 155-157):
`str::from_utf8(&label).unwrap().trim_right().to_string()` — the `unwrap`
panic on invalid UTF-8 is modelled as `none`. -/
def FatSharedState.volume_label (st : FatSharedState) : Option (List Nat) :=
  match utf8Decode st.boot.bpb.volume_label with
  | some cps => some (trimRightCp cps)
  | none => none

end FatFs

namespace FatFs

/-- C2: FAT-variant detection is the pure function
`fat_type_from_clusters` of the total cluster count alone, with boundaries
exactly at 4085 and 65525: below 4085 it yields FAT12, from 4085 up to but
excluding 65525 it yields FAT16, and from 65525 on it yields FAT32. -/
theorem c2_fat_type_boundaries : ∀ n : Nat,
    (fat_type_from_clusters n = FatType.Fat12 ↔ n < 4085) ∧
    (fat_type_from_clusters n = FatType.Fat16 ↔ 4085 ≤ n ∧ n < 65525) ∧
    (fat_type_from_clusters n = FatType.Fat32 ↔ 65525 ≤ n) := by
  intro n
  unfold fat_type_from_clusters
  split
  · refine ⟨?_, ?_, ?_⟩ <;> simp <;> omega
  · split
    · refine ⟨?_, ?_, ?_⟩ <;> simp <;> omega
    · refine ⟨?_, ?_, ?_⟩ <;> simp <;> omega

/-- C7: for a byte-range view of size `N` with cursor `o ≤ N` (with `N` in
the range the driver can construct, below 2^63) and any seek request with
type-correct payload, the seek fails with the invalid-seek error exactly when
the resulting offset would be negative or strictly exceed `N`; a failing seek
leaves the cursor unchanged; otherwise the cursor is set to the resulting
offset and that offset is returned (so seeking to exactly `N` succeeds). -/
theorem c7_slice_seek (sl : FatSlice) (pos : SeekFrom)
    (hinv : sl.offset ≤ sl.size) (hsz : sl.size < 9223372036854775808)
    (harg : pos.argOk) :
    ((FatSlice.seek sl pos).res = .error .invalidSeek ↔
      (seekTarget sl pos < 0 ∨ (sl.size : Int) < seekTarget sl pos)) ∧
    ((FatSlice.seek sl pos).res = .error .invalidSeek →
      (FatSlice.seek sl pos).slice = sl) ∧
    (0 ≤ seekTarget sl pos → seekTarget sl pos ≤ (sl.size : Int) →
      (FatSlice.seek sl pos).res = .ok (seekTarget sl pos).toNat ∧
      (FatSlice.seek sl pos).slice = { sl with offset := (seekTarget sl pos).toNat }) := by
  rcases pos with x | x | x <;>
    simp only [SeekFrom.argOk] at harg <;>
    simp only [FatSlice.seek, seekTarget, wrapI64] <;>
    split_ifs with hc <;>
    refine ⟨?_, fun hres => ?_, fun h1 h2 => ?_⟩
  all_goals simp_all [FatSlice.mk.injEq] <;> omega

/-- C8: a read on a byte-range view of size `N` at cursor `o ≤ N` (with the
window inside the `u64` range) requests exactly `min (N - o) buf.len()` bytes
at absolute stream position `begin + o`, returns the byte count actually
transferred (at most the request), advances the cursor by exactly that count
and touches nothing else of the view; at `o = N` every read returns 0 bytes
rather than an error. -/
theorem c8_slice_read (sl : FatSlice) (s : ByteStream) (bufLen : Nat)
    (hinv : sl.offset ≤ sl.size) (hbound : sl.begin + sl.size < U64) :
    (FatSlice.read sl s bufLen).count ≤ min (sl.size - sl.offset) bufLen ∧
    (FatSlice.read sl s bufLen).bytes =
      (s.data.drop (sl.begin + sl.offset)).take (min (sl.size - sl.offset) bufLen) ∧
    (FatSlice.read sl s bufLen).count = (FatSlice.read sl s bufLen).bytes.length ∧
    (FatSlice.read sl s bufLen).slice.begin = sl.begin ∧
    (FatSlice.read sl s bufLen).slice.size = sl.size ∧
    (FatSlice.read sl s bufLen).slice.offset =
      sl.offset + (FatSlice.read sl s bufLen).count ∧
    (sl.offset = sl.size → (FatSlice.read sl s bufLen).count = 0) := by
  have hU : U64 = 18446744073709551616 := rfl
  rw [hU] at hbound
  have h1 : (sl.size + U64 - sl.offset) % U64 = sl.size - sl.offset := by
    rw [hU]; omega
  have h2 : (sl.begin + sl.offset) % U64 = sl.begin + sl.offset := by
    rw [hU]; omega
  simp only [FatSlice.read, ByteStream.readPlain, ByteStream.seekStart, h1, h2,
    List.length_take, List.length_drop]
  simp only [hU]
  refine ⟨by omega, ?_, by trivial, by trivial, by trivial, by omega, fun h => by omega⟩
  rw [List.take_eq_take]
  simp only [List.length_take, List.length_drop]
  omega

/-- C9: the byte-range-view invariant `offset ≤ size` holds at construction
(both constructors start the cursor at 0) and is preserved by every read
(the model stream returns at most the requested count) and by every seek,
whether it succeeds or fails. -/
theorem c9_slice_offset_invariant (b sz fs sc bps : Nat)
    (sl : FatSlice) (s : ByteStream) (bufLen : Nat) (pos : SeekFrom)
    (hinv : sl.offset ≤ sl.size) (hsz : sl.size < U64) :
    ((FatSlice.new b sz).offset = 0 ∧ (FatSlice.new b sz).offset ≤ (FatSlice.new b sz).size) ∧
    ((FatSlice.from_sectors fs sc bps).offset = 0 ∧
      (FatSlice.from_sectors fs sc bps).offset ≤ (FatSlice.from_sectors fs sc bps).size) ∧
    (FatSlice.read sl s bufLen).slice.offset ≤ (FatSlice.read sl s bufLen).slice.size ∧
    (FatSlice.seek sl pos).slice.offset ≤ (FatSlice.seek sl pos).slice.size := by
  have hU : U64 = 18446744073709551616 := rfl
  rw [hU] at hsz
  refine ⟨⟨rfl, by simp [FatSlice.new]⟩, ⟨rfl, by simp [FatSlice.from_sectors, FatSlice.new]⟩, ?_, ?_⟩
  · have h1 : (sl.size + U64 - sl.offset) % U64 = sl.size - sl.offset := by
      rw [hU]; omega
    simp only [FatSlice.read, ByteStream.readPlain, ByteStream.seekStart, h1,
      List.length_take, List.length_drop]
    simp only [hU]
    omega
  · simp only [FatSlice.seek]
    split_ifs with hc
    · exact hinv
    · simp only []
      omega

/-- A successful `newWithBoot` is fully characterized: the signature matched,
neither divisor was zero, the (wrapped) FAT region fit in the stream, and the
stored state is exactly the derived one, with the table being the bytes at
the wrapped FAT offset. -/
theorem newWithBoot_ok_facts {boot : FatBootRecord} {s : ByteStream} {st : FatSharedState}
    (h : FatFileSystem.newWithBoot boot s = .ok st) :
    boot.boot_sig = [85, 170] ∧ boot.bpb.bytes_per_sector ≠ 0 ∧
    boot.bpb.sectors_per_cluster ≠ 0 ∧
    fatOffsetOf boot.bpb + fatSizeOf boot.bpb ≤ s.data.length ∧
    st = { rdr := ⟨s.data, fatOffsetOf boot.bpb + fatSizeOf boot.bpb⟩,
           fat_type := fat_type_from_clusters (totalClustersOf boot.bpb),
           boot := boot,
           first_data_sector := firstDataSectorOf boot.bpb,
           root_dir_sectors := rootDirSectorsOf boot.bpb,
           table := (s.data.drop (fatOffsetOf boot.bpb)).take (fatSizeOf boot.bpb) } := by
  unfold FatFileSystem.newWithBoot at h
  simp only [FatTable.from_read, ByteStream.seekStart, ByteStream.readExact] at h
  split_ifs at h with h1 h2 h3 h4
  exact ⟨not_not.mp h1, h2, h3, h4, (Except.ok.inj h).symm⟩

/-- Opening `exBoot` over `exStream` succeeds and yields `exState` — the
concrete run instantiating the geometry theorems. -/
theorem exOpen : FatFileSystem.newWithBoot exBoot exStream = .ok exState := by decide

/-- C1 (amended): for every successfully opened filesystem whose BPB avoids
the 16-bit overflow in line 122 (`root_entries·32 + (bytes_per_sector−1) <
2^16`) and the 32-bit overflow in line 123, the stored root-directory sector
count equals ceil(root-entry-count·32 / bytes-per-sector) in exact integer
arithmetic (zero when the root-entry count is zero) and the stored
first-data-sector equals reserved + fats·sectors-per-FAT + root-dir-sectors,
with sectors-per-FAT the 32-bit field when the 16-bit one is zero and the
16-bit one otherwise.  The unamended claim fails on the code because line 122
computes in `u16`: see the counterexample. -/
theorem c1_geometry_amended (boot : FatBootRecord) (s : ByteStream) (st : FatSharedState)
    (h : FatFileSystem.newWithBoot boot s = .ok st)
    (hre : boot.bpb.root_entries * 32 + (boot.bpb.bytes_per_sector - 1) < U16)
    (hfd : boot.bpb.reserved_sectors + boot.bpb.fats * sectorsPerFatOf boot.bpb
      + rootDirSectorsOf boot.bpb < U32) :
    st.root_dir_sectors = (boot.bpb.root_entries * 32 + (boot.bpb.bytes_per_sector - 1))
      / boot.bpb.bytes_per_sector ∧
    (boot.bpb.root_entries = 0 → st.root_dir_sectors = 0) ∧
    st.first_data_sector = boot.bpb.reserved_sectors
      + boot.bpb.fats * sectorsPerFatOf boot.bpb + rootDirSectorsOf boot.bpb ∧
    sectorsPerFatOf boot.bpb = (if boot.bpb.sectors_per_fat_16 = 0
      then boot.bpb.sectors_per_fat_32 else boot.bpb.sectors_per_fat_16) := by
  obtain ⟨hsig, hbps, hspc, hle, hst⟩ := newWithBoot_ok_facts h
  subst hst
  rw [show U16 = 65536 from rfl] at hre
  rw [show U32 = 4294967296 from rfl] at hfd
  have e1 : rootDirSectorsOf boot.bpb = (boot.bpb.root_entries * 32
      + (boot.bpb.bytes_per_sector - 1)) / boot.bpb.bytes_per_sector := by
    unfold rootDirSectorsOf
    rw [show U16 = 65536 from rfl]
    congr 1
    omega
  refine ⟨e1, ?_, ?_, rfl⟩
  · intro h0
    have e2 : (boot.bpb.bytes_per_sector - 1) / boot.bpb.bytes_per_sector = 0 :=
      Nat.div_eq_of_lt (by omega)
    show rootDirSectorsOf boot.bpb = 0
    rw [e1, h0]
    simpa using e2
  · show firstDataSectorOf boot.bpb = _
    unfold firstDataSectorOf
    rw [show U32 = 4294967296 from rfl]
    set p := boot.bpb.fats * sectorsPerFatOf boot.bpb
    omega

/-- C1 (counterexample): the stream `c1badData` opens successfully with
root-entry count 2048 and 512-byte sectors, yet the stored root-directory
sector count is 0 while exact arithmetic gives ceil(2048·32/512) = 128 —
`root_entries * 32` wrapped to 0 in `u16`. -/
theorem c1_counterexample :
    rootDirSectorsOfResult (FatFileSystem.new ⟨c1badData, 0⟩) = some 0 ∧
    bpbOfResult (FatFileSystem.new ⟨c1badData, 0⟩) = some
      { c5Bpb with reserved_sectors := 1, root_entries := 2048, total_sectors_16 := 100 } ∧
    (2048 * 32 + (512 - 1)) / 512 = 128 := by
  refine ⟨by decide, by decide, by decide⟩

/-- C1 (witness for the amended theorem): on the concrete open of `exBoot`
the stored root-directory sector count is ceil(16·32/512) = 1 and the stored
first data sector is 1 + 1·1 + 1 = 3. -/
theorem c1_witness :
    exState.root_dir_sectors = 1 ∧ exState.first_data_sector = 3 := by
  have h := c1_geometry_amended exBoot exStream exState exOpen (by decide) (by decide)
  refine ⟨?_, ?_⟩
  · rw [h.1]; decide
  · rw [h.2.2.1]; decide

/-- C3: whenever the decoded boot record's last two bytes are not 0x55, 0xAA,
opening fails with precisely the invalid-signature error, and no filesystem
state is constructed (the open returns before any geometry or table work —
in the embedding, `newWithBoot` branches to the error before binding any
derived value). -/
theorem c3_invalid_signature (s : ByteStream) (boot : FatBootRecord) (s1 : ByteStream)
    (h : read_boot_record s = .ok (boot, s1)) (hsig : boot.boot_sig ≠ [85, 170]) :
    FatFileSystem.new s = .error .invalidSignature := by
  simp [FatFileSystem.new, h, FatFileSystem.newWithBoot, hsig]

/-- C3 (witness): a 512-byte all-zero stream decodes to `zeroBoot` (signature
`[0, 0]`) and opening it yields the invalid-signature error. -/
theorem c3_witness :
    FatFileSystem.new ⟨List.replicate 512 0, 0⟩ = .error .invalidSignature :=
  c3_invalid_signature ⟨List.replicate 512 0, 0⟩ zeroBoot ⟨List.replicate 512 0, 512⟩
    (by decide) (by decide)

/-- C5 (code bug): the allocation table is read from byte offset
`(reserved_sectors * bytes_per_sector) mod 2^16`, not from the exact product:
with 512 reserved sectors of 512 bytes the exact offset is 262144 but the
`u16` product wraps to 0, and the concrete open of `c5Data` succeeds while
reading the boot sector itself back as the allocation table (the table bytes
equal the first 512 bytes of the stream).  The byte count read — sectors-per-
FAT × bytes-per-sector — is as the claim states. -/
theorem c5_fat_offset_truncation :
    bpbOfResult (FatFileSystem.new ⟨c5Data, 0⟩) = some c5Bpb ∧
    fatOffsetOf c5Bpb = 0 ∧
    c5Bpb.reserved_sectors * c5Bpb.bytes_per_sector = 262144 ∧
    fatSizeOf c5Bpb = 512 ∧
    tableOfResult (FatFileSystem.new ⟨c5Data, 0⟩) = some (c5Data.take 512) := by
  refine ⟨by decide, by decide, by decide, by decide, by decide⟩

/-- C6 (amended): for every successfully opened filesystem (with the decoded
16-bit bytes-per-sector in range) and every cluster `c` with
`2 ≤ c < total clusters`: when `(c−2)·sectors_per_cluster + first_data_sector`
does not overflow `u32`, `sector_from_cluster c` equals that exact value; the
stated recovery arithmetic `(sector − first_data_sector)/sectors_per_cluster
+ 2` always round-trips back to `c`; and `offset_from_cluster c` equals
`sector_from_cluster c × bytes_per_sector`.  The unamended claim fails
because the `u32` addition can wrap for degenerate (underflowed) geometry:
see the counterexample. -/
theorem c6_cluster_round_trip_amended (boot : FatBootRecord) (s : ByteStream)
    (st : FatSharedState) (c : Nat)
    (h : FatFileSystem.newWithBoot boot s = .ok st)
    (hbps : boot.bpb.bytes_per_sector < U16)
    (hc2 : 2 ≤ c) (hctc : c < totalClustersOf boot.bpb) :
    ((c - 2) * boot.bpb.sectors_per_cluster + firstDataSectorOf boot.bpb < U32 →
      st.sector_from_cluster c =
        (c - 2) * boot.bpb.sectors_per_cluster + firstDataSectorOf boot.bpb) ∧
    (st.sector_from_cluster c + U32 - firstDataSectorOf boot.bpb) % U32
        / boot.bpb.sectors_per_cluster + 2 = c ∧
    st.offset_from_cluster c = st.sector_from_cluster c * boot.bpb.bytes_per_sector := by
  obtain ⟨hsig, hbps0, hspc, hle, hst⟩ := newWithBoot_ok_facts h
  subst hst
  have hdlt : dataSectorsOf boot.bpb < U32 := by
    unfold dataSectorsOf
    rw [show U32 = 4294967296 from rfl]
    omega
  have htc : totalClustersOf boot.bpb * boot.bpb.sectors_per_cluster
      ≤ dataSectorsOf boot.bpb := Nat.div_mul_le_self _ _
  have hcU : c < U32 :=
    lt_trans (lt_of_lt_of_le hctc (Nat.div_le_self _ _)) hdlt
  have hmul : (c - 2) * boot.bpb.sectors_per_cluster < U32 := by
    have h1 : (c - 2) * boot.bpb.sectors_per_cluster
        ≤ totalClustersOf boot.bpb * boot.bpb.sectors_per_cluster :=
      Nat.mul_le_mul_right _ (by omega)
    omega
  have hfds : firstDataSectorOf boot.bpb < U32 := by
    unfold firstDataSectorOf
    rw [show U32 = 4294967296 from rfl]
    omega
  have hsub : (c + U32 - 2) % U32 = c - 2 := by
    rw [show U32 = 4294967296 from rfl] at hcU ⊢
    omega
  simp only [FatSharedState.sector_from_cluster, FatSharedState.offset_from_cluster,
    FatSharedState.offset_from_sector]
  rw [hsub]
  set p := (c - 2) * boot.bpb.sectors_per_cluster with hp
  have hpm : p % U32 = p := Nat.mod_eq_of_lt hmul
  rw [hpm]
  refine ⟨fun hov => ?_, ?_, ?_⟩
  · rw [show U32 = 4294967296 from rfl] at hov hfds ⊢
    omega
  · have hr : ((p + firstDataSectorOf boot.bpb) % U32 + U32
        - firstDataSectorOf boot.bpb) % U32 = p := by
      rw [show U32 = 4294967296 from rfl] at hmul hfds ⊢
      omega
    rw [hr, hp, Nat.mul_div_cancel _ (Nat.pos_of_ne_zero hspc)]
    omega
  · have hq : (p + firstDataSectorOf boot.bpb) % U32 ≤ 4294967295 := by
      rw [show U32 = 4294967296 from rfl]
      omega
    have hb : boot.bpb.bytes_per_sector ≤ 65535 := by
      rw [show U16 = 65536 from rfl] at hbps
      omega
    have hlt : (p + firstDataSectorOf boot.bpb) % U32 * boot.bpb.bytes_per_sector
        < U64 := by
      have h1 := Nat.mul_le_mul hq hb
      rw [show U64 = 18446744073709551616 from rfl]
      omega
    rw [Nat.mod_eq_of_lt hlt]

/-- C6 (counterexample): `c6Data` opens successfully with an underflowed
data-sector count, giving 2^32 − 100 total clusters and first data sector
600; for cluster c = 2^32 − 101 (which satisfies 2 ≤ c < total clusters)
the stored `sector_from_cluster` is 497, whereas the exact value
(c − 2)·1 + 600 = 2^32 + 497 = 4294967793 — the `u32` addition wrapped. -/
theorem c6_counterexample :
    bpbOfResult (FatFileSystem.new ⟨c6Data, 0⟩) = some c6Bpb ∧
    totalClustersOf c6Bpb = 4294967196 ∧
    firstDataSectorOf c6Bpb = 600 ∧
    sectorOfResult (FatFileSystem.new ⟨c6Data, 0⟩) 4294967195 = some 497 ∧
    (4294967195 - 2) * c6Bpb.sectors_per_cluster + firstDataSectorOf c6Bpb
      = 4294967793 := by
  refine ⟨by decide, by decide, by decide, by decide, by decide⟩

/-- C6 (witness for the amended theorem): on the concrete open of `exBoot`,
cluster 5 maps to sector (5−2)·1 + 3 = 6 and byte offset 6·512 = 3072. -/
theorem c6_witness :
    exState.sector_from_cluster 5 = 6 ∧ exState.offset_from_cluster 5 = 3072 := by
  have h := c6_cluster_round_trip_amended exBoot exStream exState 5 exOpen
    (by decide) (by decide) (by decide)
  have h1 := h.1 (by decide)
  refine ⟨?_, ?_⟩
  · rw [h1]; decide
  · rw [h.2.2, h1]; decide

/-- Projection of a stream literal. -/
theorem bs_data (d : List Nat) (p : Nat) : (⟨d, p⟩ : ByteStream).data = d := rfl

/-- Projection of a stream literal. -/
theorem bs_pos (d : List Nat) (p : Nat) : (⟨d, p⟩ : ByteStream).pos = p := rfl

/-- The stream left behind by a plain fixed-buffer read. -/
theorem readArr_snd (s : ByteStream) (n : Nat) :
    (s.readArr n).2 = ⟨s.data, s.pos + min n (s.data.length - s.pos)⟩ := rfl

/-- A successful `read_exact` consumed exactly `n` available bytes. -/
theorem readExact_ok {d : List Nat} {p n : Nat} {bs : List Nat} {s1 : ByteStream}
    (h : ByteStream.readExact ⟨d, p⟩ n = .ok (bs, s1)) :
    p + n ≤ d.length ∧ s1 = ⟨d, p + n⟩ := by
  unfold ByteStream.readExact at h
  split_ifs at h with hle
  exact ⟨hle, (congrArg Prod.snd (Except.ok.inj h)).symm⟩

/-- A successful `read_u8` consumed exactly 1 available byte. -/
theorem readU8_ok {d : List Nat} {p : Nat} {v : Nat} {s1 : ByteStream}
    (h : readU8 ⟨d, p⟩ = .ok (v, s1)) : p + 1 ≤ d.length ∧ s1 = ⟨d, p + 1⟩ := by
  unfold readU8 at h
  split at h
  · exact Except.noConfusion h
  rename_i bs s2 heq
  obtain ⟨hle, hs⟩ := readExact_ok heq
  have h3 := Except.ok.inj h
  injection h3 with hv hs1
  exact ⟨hle, hs1 ▸ hs⟩

/-- A successful `read_u16` consumed exactly 2 available bytes. -/
theorem readU16_ok {d : List Nat} {p : Nat} {v : Nat} {s1 : ByteStream}
    (h : readU16 ⟨d, p⟩ = .ok (v, s1)) : p + 2 ≤ d.length ∧ s1 = ⟨d, p + 2⟩ := by
  unfold readU16 at h
  split at h
  · exact Except.noConfusion h
  rename_i bs s2 heq
  obtain ⟨hle, hs⟩ := readExact_ok heq
  have h3 := Except.ok.inj h
  injection h3 with hv hs1
  exact ⟨hle, hs1 ▸ hs⟩

/-- A successful `read_u32` consumed exactly 4 available bytes. -/
theorem readU32_ok {d : List Nat} {p : Nat} {v : Nat} {s1 : ByteStream}
    (h : readU32 ⟨d, p⟩ = .ok (v, s1)) : p + 4 ≤ d.length ∧ s1 = ⟨d, p + 4⟩ := by
  unfold readU32 at h
  split at h
  · exact Except.noConfusion h
  rename_i bs s2 heq
  obtain ⟨hle, hs⟩ := readExact_ok heq
  have h3 := Except.ok.inj h
  injection h3 with hv hs1
  exact ⟨hle, hs1 ▸ hs⟩

/-- A two-byte plain read whose window holds at most one byte pads the second
byte with the buffer's default zero, so it can never produce the boot
signature `[0x55, 0xAA]`. -/
theorem readArr_two_not_sig {d : List Nat} {p : Nat} (h : d.length ≤ p + 1) :
    (ByteStream.readArr ⟨d, p⟩ 2).1 ≠ [85, 170] := by
  unfold ByteStream.readArr ByteStream.readPlain
  intro hcon
  simp only [bs_data, bs_pos] at hcon
  have hm : min 2 (d.length - p) = 0 ∨ min 2 (d.length - p) = 1 := by omega
  rcases hm with hm | hm <;> rw [hm] at hcon
  · simp at hcon
  · have hl : (d.drop p).length = 1 := by rw [List.length_drop]; omega
    obtain ⟨a, ha⟩ := List.length_eq_one.mp hl
    rw [ha] at hcon
    simp at hcon

/-- Tracking a successful `read_bpb` through the stream: the data is
untouched; in the legacy branch all reads up to the volume id are exact
(demanding 32 bytes past the BPB start) and the final cursor sits at
`min (start + 51) length` because the two label reads are plain; in the
extended branch the exact reads demand 60 bytes and the cursor ends at
`min (start + 79) length`. -/
theorem read_bpb_ok {d : List Nat} {p : Nat} {bpb : FatBiosParameterBlock} {s1 : ByteStream}
    (h : read_bpb ⟨d, p⟩ = .ok (bpb, s1)) :
    s1.data = d ∧
    ((bpb.sectors_per_fat_16 ≠ 0 ∧ p + 32 ≤ d.length ∧
        s1.pos = min (p + 51) d.length) ∨
      (bpb.sectors_per_fat_16 = 0 ∧ p + 60 ≤ d.length ∧
        s1.pos = min (p + 79) d.length)) := by
  unfold read_bpb at h
  split at h
  · exact Except.noConfusion h
  rename_i v1 t1 e1
  obtain ⟨l1, q1⟩ := readU16_ok e1
  subst q1
  split at h
  · exact Except.noConfusion h
  rename_i v2 t2 e2
  obtain ⟨l2, q2⟩ := readU8_ok e2
  subst q2
  split at h
  · exact Except.noConfusion h
  rename_i v3 t3 e3
  obtain ⟨l3, q3⟩ := readU16_ok e3
  subst q3
  split at h
  · exact Except.noConfusion h
  rename_i v4 t4 e4
  obtain ⟨l4, q4⟩ := readU8_ok e4
  subst q4
  split at h
  · exact Except.noConfusion h
  rename_i v5 t5 e5
  obtain ⟨l5, q5⟩ := readU16_ok e5
  subst q5
  split at h
  · exact Except.noConfusion h
  rename_i v6 t6 e6
  obtain ⟨l6, q6⟩ := readU16_ok e6
  subst q6
  split at h
  · exact Except.noConfusion h
  rename_i v7 t7 e7
  obtain ⟨l7, q7⟩ := readU8_ok e7
  subst q7
  split at h
  · exact Except.noConfusion h
  rename_i v8 t8 e8
  obtain ⟨l8, q8⟩ := readU16_ok e8
  subst q8
  split at h
  · exact Except.noConfusion h
  rename_i v9 t9 e9
  obtain ⟨l9, q9⟩ := readU16_ok e9
  subst q9
  split at h
  · exact Except.noConfusion h
  rename_i v10 t10 e10
  obtain ⟨l10, q10⟩ := readU16_ok e10
  subst q10
  split at h
  · exact Except.noConfusion h
  rename_i v11 t11 e11
  obtain ⟨l11, q11⟩ := readU32_ok e11
  subst q11
  split at h
  · exact Except.noConfusion h
  rename_i v12 t12 e12
  obtain ⟨l12, q12⟩ := readU32_ok e12
  subst q12
  by_cases hif : v8 = 0
  · rw [if_pos hif] at h
    split at h
    · exact Except.noConfusion h
    rename_i v13 t13 e13
    obtain ⟨l13, q13⟩ := readU32_ok e13
    subst q13
    split at h
    · exact Except.noConfusion h
    rename_i v14 t14 e14
    obtain ⟨l14, q14⟩ := readU16_ok e14
    subst q14
    split at h
    · exact Except.noConfusion h
    rename_i v15 t15 e15
    obtain ⟨l15, q15⟩ := readU16_ok e15
    subst q15
    split at h
    · exact Except.noConfusion h
    rename_i v16 t16 e16
    obtain ⟨l16, q16⟩ := readU32_ok e16
    subst q16
    split at h
    · exact Except.noConfusion h
    rename_i v17 t17 e17
    obtain ⟨l17, q17⟩ := readU16_ok e17
    subst q17
    split at h
    · exact Except.noConfusion h
    rename_i v18 t18 e18
    obtain ⟨l18, q18⟩ := readU16_ok e18
    subst q18
    simp only [readArr_snd, bs_data, bs_pos] at h
    split at h
    · exact Except.noConfusion h
    rename_i v19 t19 e19
    obtain ⟨l19, q19⟩ := readU8_ok e19
    subst q19
    split at h
    · exact Except.noConfusion h
    rename_i v20 t20 e20
    obtain ⟨l20, q20⟩ := readU8_ok e20
    subst q20
    split at h
    · exact Except.noConfusion h
    rename_i v21 t21 e21
    obtain ⟨l21, q21⟩ := readU8_ok e21
    subst q21
    split at h
    · exact Except.noConfusion h
    rename_i v22 t22 e22
    obtain ⟨l22, q22⟩ := readU32_ok e22
    subst q22
    simp only [Except.ok.injEq, Prod.mk.injEq, readArr_snd, bs_data, bs_pos] at h
    obtain ⟨hb, hs⟩ := h
    subst hb
    refine ⟨?_, Or.inr ⟨hif, by omega, ?_⟩⟩
    · rw [← hs]
    · rw [← hs]
      simp only [bs_pos]
      omega
  · rw [if_neg hif] at h
    split at h
    · exact Except.noConfusion h
    rename_i v13 t13 e13
    obtain ⟨l13, q13⟩ := readU8_ok e13
    subst q13
    split at h
    · exact Except.noConfusion h
    rename_i v14 t14 e14
    obtain ⟨l14, q14⟩ := readU8_ok e14
    subst q14
    split at h
    · exact Except.noConfusion h
    rename_i v15 t15 e15
    obtain ⟨l15, q15⟩ := readU8_ok e15
    subst q15
    split at h
    · exact Except.noConfusion h
    rename_i v16 t16 e16
    obtain ⟨l16, q16⟩ := readU32_ok e16
    subst q16
    simp only [Except.ok.injEq, Prod.mk.injEq, readArr_snd, bs_data, bs_pos] at h
    obtain ⟨hb, hs⟩ := h
    subst hb
    refine ⟨?_, Or.inl ⟨hif, by omega, ?_⟩⟩
    · rw [← hs]
    · rw [← hs]
      simp only [bs_pos]
      omega

/-- Tracking a successful `read_boot_record`: at least 510 bytes past the
start position exist (jump bytes, OEM name, BPB and the boot-code
`read_exact` all fit), and the signature field is exactly the two-byte plain
read performed at offset start + 510. -/
theorem read_boot_record_ok {d : List Nat} {p : Nat} {boot : FatBootRecord} {s1 : ByteStream}
    (h : read_boot_record ⟨d, p⟩ = .ok (boot, s1)) :
    p + 510 ≤ d.length ∧
    boot.boot_sig = (ByteStream.readArr ⟨d, p + 510⟩ 2).1 := by
  unfold read_boot_record at h
  simp only [readArr_snd, bs_data, bs_pos] at h
  split at h
  · exact Except.noConfusion h
  rename_i bpb t e0
  obtain ⟨td, tp⟩ := t
  obtain ⟨htd, hcase⟩ := read_bpb_ok e0
  simp only [bs_data, bs_pos] at htd hcase
  have htd2 := htd.symm
  subst htd2
  by_cases hb32 : bpb.sectors_per_fat_16 = 0
  · rw [if_pos hb32] at h
    split at h
    · exact Except.noConfusion h
    rename_i bc u e1
    obtain ⟨hlbc, hu⟩ := readExact_ok e1
    subst hu
    simp only [Except.ok.injEq, Prod.mk.injEq] at h
    obtain ⟨hbt, hs⟩ := h
    rcases hcase with ⟨hne, hle, hpos⟩ | ⟨hz, hle, hpos⟩
    · exact absurd hb32 hne
    · have hp510 : p + 510 ≤ d.length := by omega
      refine ⟨hp510, ?_⟩
      rw [← hbt]
      show (ByteStream.readArr ⟨d, tp + 420⟩ 2).1 = (ByteStream.readArr ⟨d, p + 510⟩ 2).1
      have hteq : tp + 420 = p + 510 := by omega
      rw [hteq]
  · rw [if_neg hb32] at h
    split at h
    · exact Except.noConfusion h
    rename_i bc u e1
    obtain ⟨hlbc, hu⟩ := readExact_ok e1
    subst hu
    simp only [Except.ok.injEq, Prod.mk.injEq] at h
    obtain ⟨hbt, hs⟩ := h
    rcases hcase with ⟨hne, hle, hpos⟩ | ⟨hz, hle, hpos⟩
    · have hp510 : p + 510 ≤ d.length := by omega
      refine ⟨hp510, ?_⟩
      rw [← hbt]
      show (ByteStream.readArr ⟨d, tp + 448⟩ 2).1 = (ByteStream.readArr ⟨d, p + 510⟩ 2).1
      have hteq : tp + 448 = p + 510 := by omega
      rw [hteq]
    · exact absurd hz hb32

/-- C4: every boot-record decode read that would only partially fill its
buffer because the stream ends makes the open fail: concretely, for any
stream shorter than the full 512-byte boot record, `FatFileSystem::new`
returns an error — either an end-of-stream error from a `read_exact`-backed
read downstream of the partial fill, or the invalid-signature error when
only the trailing signature bytes are cut off (the partially filled
signature buffer keeps a default zero and can never equal 0x55,0xAA). -/
theorem c4_truncated_boot_fails (s : ByteStream) (h0 : s.pos = 0)
    (hlen : s.data.length < 512) : ∃ e, FatFileSystem.new s = .error e := by
  obtain ⟨d, p⟩ := s
  have hp : p = 0 := h0
  subst hp
  have hdlen : d.length < 512 := hlen
  unfold FatFileSystem.new
  cases hbr : read_boot_record ⟨d, 0⟩ with
  | error e => exact ⟨e, rfl⟩
  | ok pr =>
    obtain ⟨boot, s1⟩ := pr
    obtain ⟨hp510, hsig⟩ := read_boot_record_ok hbr
    have hsig2 : boot.boot_sig ≠ [85, 170] := by
      rw [hsig]
      exact readArr_two_not_sig (by omega)
    refine ⟨.invalidSignature, ?_⟩
    show FatFileSystem.newWithBoot boot s1 = .error .invalidSignature
    unfold FatFileSystem.newWithBoot
    rw [if_pos hsig2]

/-- C4 (witness): opening the empty stream fails. -/
theorem c4_witness : ∃ e, FatFileSystem.new ⟨[], 0⟩ = .error e :=
  c4_truncated_boot_fails ⟨[], 0⟩ rfl (by decide)

/-- C10: `volume_label` decodes the stored 11 label bytes as UTF-8 and trims
trailing Unicode whitespace; when the bytes are valid UTF-8 it returns the
trimmed decoding, and when they are not (the unconditional `unwrap`) it
panics — modelled as `none` — instead of returning a value or an error; such
label contents exist (eleven 0xFF bytes are not valid UTF-8). -/
theorem c10_volume_label (st : FatSharedState) :
    (∀ cps, utf8Decode st.boot.bpb.volume_label = some cps →
      st.volume_label = some (trimRightCp cps)) ∧
    (utf8Decode st.boot.bpb.volume_label = none → st.volume_label = none) ∧
    utf8Decode (List.replicate 11 255) = none := by
  refine ⟨fun cps hc => ?_, fun hn => ?_, by decide⟩
  · unfold FatSharedState.volume_label
    rw [hc]
  · unfold FatSharedState.volume_label
    rw [hn]

/-- C10 (witness): the label of the concrete opened state `exState` is eleven
spaces, valid UTF-8, and `volume_label` returns the empty trimmed string. -/
theorem c10_witness : exState.volume_label = some [] := by
  have h := (c10_volume_label exState).1 (List.replicate 11 32) (by decide)
  rw [h]
  decide

/-- C7 (witness): on a view of size 10 with cursor 3, a cursor-relative seek
by +4 succeeds, returns 7 and moves the cursor to 7. -/
theorem c7_witness :
    (FatSlice.seek ⟨0, 10, 3⟩ (SeekFrom.current 4)).res = .ok 7 ∧
    (FatSlice.seek ⟨0, 10, 3⟩ (SeekFrom.current 4)).slice.offset = 7 := by
  have h := (c7_slice_seek ⟨0, 10, 3⟩ (SeekFrom.current 4) (by decide) (by decide)
    (by decide)).2.2 (by decide) (by decide)
  refine ⟨?_, ?_⟩
  · rw [h.1]; decide
  · rw [h.2]; decide

/-- C8 (witness): on a view `[0, 10)` of a 16-byte stream with cursor 3 and a
4-byte buffer, the read returns the 4 bytes at positions 3..6 and advances
the cursor to 7. -/
theorem c8_witness :
    (FatSlice.read ⟨0, 10, 3⟩ ⟨List.range 16, 0⟩ 4).bytes = [3, 4, 5, 6] ∧
    (FatSlice.read ⟨0, 10, 3⟩ ⟨List.range 16, 0⟩ 4).slice.offset = 7 := by
  have h := c8_slice_read ⟨0, 10, 3⟩ ⟨List.range 16, 0⟩ 4 (by decide) (by decide)
  refine ⟨?_, ?_⟩
  · rw [h.2.1]; decide
  · rw [h.2.2.2.2.2.1, h.2.2.1]; decide

/-- C9 (witness): the cursor invariant on concrete views — a fresh view has
cursor 0, and both a concrete read and a concrete failing end-relative seek
keep the cursor within bounds. -/
theorem c9_witness :
    (FatSlice.new 7 9).offset = 0 ∧
    (FatSlice.read ⟨0, 10, 3⟩ ⟨List.range 16, 0⟩ 4).slice.offset ≤
      (FatSlice.read ⟨0, 10, 3⟩ ⟨List.range 16, 0⟩ 4).slice.size ∧
    (FatSlice.seek ⟨0, 10, 3⟩ (SeekFrom.fromEnd (-20))).slice.offset ≤
      (FatSlice.seek ⟨0, 10, 3⟩ (SeekFrom.fromEnd (-20))).slice.size := by
  have h := c9_slice_offset_invariant 7 9 1 2 3 ⟨0, 10, 3⟩ ⟨List.range 16, 0⟩ 4
    (SeekFrom.fromEnd (-20)) (by decide) (by decide)
  exact ⟨h.1.1, h.2.2.1, h.2.2.2⟩

end FatFs
